import Mathlib

/-!
Shallow embedding of the up-mcp repository (an MCP server exposing the Up Bank
HTTP API) and verification of its specification claims.

The embedding models the two source files:
  * `src/up_api.py`  — the `UpAPI` client: request construction
    (`_compact_params`, `_pagination_params`, the per-endpoint methods) and
    response/error handling (`_request`).
  * `src/server.py`  — the FastMCP tool dispatch layer: token resolution
    (`_resolve_token_from_request`, `_get_client`), error translation
    (`_run_api_call`), and one tool per client method.

HTTP itself is abstracted as an oracle `net : Request → NetOutcome`; an
operation's observable behaviour is the list of requests it issues together
with its `Except` result. Python exceptions are modelled by the `PyError`
type; Python `dict`s with string keys are modelled as association lists
(all dict literals in the source have pairwise distinct keys, so `{**a, **b}`
merging is list append), and JSON values by the `Json` type.
-/

/-- JSON-like values: the payloads of query parameters and request bodies. -/
inductive Json where
  | str : String → Json
  | int : Int → Json
  | bool : Bool → Json
  | obj : List (String × Json) → Json
  | arr : List Json → Json

/-- The exception kinds the two source files can raise:
`UpAPIError` (up_api.py, normalized client error), `ValueError`
(empty-tag validation and the `UpAPI.__init__` token check), `RuntimeError`
(the dispatch layer's configuration error and its re-raise of `UpAPIError`),
and `json.JSONDecodeError` (a success response whose body is not JSON). -/
inductive PyError where
  | upAPIError : String → PyError
  | valueError : String → PyError
  | runtimeError : String → PyError
  | jsonDecodeError : String → PyError
deriving DecidableEq, Repr

/-- up_api.py `_compact_params`: remove parameters whose value is None. -/
def _compact_params {α : Type} (params : List (String × Option α)) : List (String × α) :=
  params.filterMap (fun p => match p.2 with
    | some v => some (p.1, v)
    | none => none)

/-- up_api.py `UpAPIConfig` dataclass. The 30.0-second float timeout is kept
as a rational-valued field irrelevant to every claim; all other fields are
verbatim. -/
structure UpAPIConfig where
  token : String
  timeout : Rat
  base_url : String
  user_agent : String
deriving DecidableEq, Repr

/-- `UpAPIConfig(token=token)` with the dataclass defaults of up_api.py. -/
def UpAPIConfig.ofToken (token : String) : UpAPIConfig :=
  { token := token
    timeout := 30
    base_url := "https://api.up.com.au/api/v1"
    user_agent := "up-mcp/1.0 (+https://github.com/shaunakg/up-mcp)" }

/-- One outgoing HTTP request as assembled by `UpAPI._request`. -/
structure Request where
  method : String
  url : String
  headers : List (String × String)
  params : List (String × Json)
  body : Option Json

/-- The headers dict built inside `UpAPI._request`. -/
def requestHeaders (cfg : UpAPIConfig) : List (String × String) :=
  [("Authorization", "Bearer " ++ cfg.token),
   ("User-Agent", cfg.user_agent),
   ("Accept", "application/json")]

/-- Assemble the request exactly as `UpAPI._request` does before sending:
`url = base_url + path`, the three fixed headers, and the given
query parameters and optional JSON body. -/
def mkRequest (cfg : UpAPIConfig) (method : String) (path : String)
    (params : List (String × Json)) (body : Option Json) : Request :=
  { method := method
    url := cfg.base_url ++ path
    headers := requestHeaders cfg
    params := params
    body := body }

/-- An upstream HTTP response: status code, raw text, and the JSON parse of
the body when it parses (`response.json()` succeeds iff `parsed` is `some`). -/
structure UpResponse where
  status : Nat
  text : String
  parsed : Option Json

/-- Outcome of attempting one HTTP exchange: either a response arrived, or a
transport-level failure (`httpx.HTTPError` that is not a status error)
occurred with the given exception text. -/
inductive NetOutcome where
  | response : UpResponse → NetOutcome
  | transportError : String → NetOutcome

mutual
/-- Python `str()` of a value produced by `response.json()` (dicts, lists,
strings, ints, bools), as interpolated by the f-string in `UpAPI._request`. -/
def pyStrJson : Json → String
  | .str s => "'" ++ s ++ "'"
  | .int n => toString n
  | .bool b => if b then "True" else "False"
  | .obj kvs => "\x7b" ++ pyStrFields kvs ++ "\x7d"
  | .arr xs => "[" ++ pyStrElems xs ++ "]"

/-- Comma-separated `'key': value` renderings of a dict's entries. -/
def pyStrFields : List (String × Json) → String
  | [] => ""
  | [(k, v)] => "'" ++ k ++ "': " ++ pyStrJson v
  | (k, v) :: rest => "'" ++ k ++ "': " ++ pyStrJson v ++ ", " ++ pyStrFields rest

/-- Comma-separated renderings of a list's elements. -/
def pyStrElems : List Json → String
  | [] => ""
  | [j] => pyStrJson j
  | j :: rest => pyStrJson j ++ ", " ++ pyStrElems rest
end

/-- httpx `Response.is_success`: the 2xx range. `raise_for_status` raises
`HTTPStatusError` exactly when the status is outside it. -/
def is_success (status : Nat) : Bool :=
  200 ≤ status && status ≤ 299

/-- The `detail` computed in the `HTTPStatusError` handler of
`UpAPI._request`: the parsed JSON body when `response.json()` succeeds,
else the raw response text. -/
def upErrorDetail (resp : UpResponse) : String :=
  match resp.parsed with
  | some j => pyStrJson j
  | none => resp.text

/-- The message of the `UpAPIError` raised by `UpAPI._request` for a
non-success status: `f"Up API request failed ({status_code}): {detail}"`. -/
def upErrorMessage (resp : UpResponse) : String :=
  "Up API request failed (" ++ toString resp.status ++ "): " ++ upErrorDetail resp

/-- Response handling of `UpAPI._request`: a success status returns the
parsed JSON body (`response.json()`), a non-success status raises
`UpAPIError` with `upErrorMessage`. -/
def handleResponse (resp : UpResponse) : Except PyError Json :=
  if is_success resp.status then
    match resp.parsed with
    | some j => Except.ok j
    | none => Except.error (PyError.jsonDecodeError resp.text)
  else
    Except.error (PyError.upAPIError (upErrorMessage resp))

namespace UpAPI

/-- `UpAPI._request` given the network oracle: a transport failure becomes
`UpAPIError` with the `"Unable to reach Up API: ..."` message, a response is
handled by `handleResponse`. -/
def _request (net : Request → NetOutcome) (req : Request) : Except PyError Json :=
  match net req with
  | NetOutcome.transportError msg =>
      Except.error (PyError.upAPIError ("Unable to reach Up API: " ++ msg))
  | NetOutcome.response resp => handleResponse resp

end UpAPI

/-- Run one client operation: a builder that failed locally (tag validation)
issues no request; otherwise exactly the one built request is issued and its
outcome handled. Returns the issued-request trace and the result. -/
def runClientOp (net : Request → NetOutcome) (op : Except PyError Request) :
    List Request × Except PyError Json :=
  match op with
  | Except.error e => ([], Except.error e)
  | Except.ok req => ([req], UpAPI._request net req)

namespace UpAPI

/-- up_api.py `UpAPI._pagination_params`. -/
def _pagination_params (page_size : Option Int) (after : Option String)
    (before : Option String) : List (String × Json) :=
  _compact_params
    [("page[size]", page_size.map Json.int),
     ("page[after]", after.map Json.str),
     ("page[before]", before.map Json.str)]

/-- `UpAPI.ping`: GET /util/ping. -/
def ping_req (cfg : UpAPIConfig) : Request :=
  mkRequest cfg "GET" "/util/ping" [] none

/-- `UpAPI.list_accounts`: GET /accounts with pagination. -/
def list_accounts_req (cfg : UpAPIConfig) (page_size : Option Int)
    (after before : Option String) : Request :=
  mkRequest cfg "GET" "/accounts" (_pagination_params page_size after before) none

/-- `UpAPI.get_account`. -/
def get_account_req (cfg : UpAPIConfig) (account_id : String) : Request :=
  mkRequest cfg "GET" ("/accounts/" ++ account_id) [] none

/-- `UpAPI.list_transactions`: pagination merged with the compacted filter
dict (`{**pagination, **filters}`; all keys distinct, hence list append). -/
def list_transactions_req (cfg : UpAPIConfig)
    (status since until_ category tag : Option String)
    (page_size : Option Int) (after before : Option String) : Request :=
  mkRequest cfg "GET" "/transactions"
    (_pagination_params page_size after before ++
      _compact_params
        [("filter[status]", status.map Json.str),
         ("filter[since]", since.map Json.str),
         ("filter[until]", until_.map Json.str),
         ("filter[category]", category.map Json.str),
         ("filter[tag]", tag.map Json.str)]) none

/-- `UpAPI.get_transaction`. -/
def get_transaction_req (cfg : UpAPIConfig) (transaction_id : String) : Request :=
  mkRequest cfg "GET" ("/transactions/" ++ transaction_id) [] none

/-- `UpAPI.list_transactions_by_account`. -/
def list_transactions_by_account_req (cfg : UpAPIConfig) (account_id : String)
    (status since until_ tag : Option String)
    (page_size : Option Int) (after before : Option String) : Request :=
  mkRequest cfg "GET" ("/accounts/" ++ account_id ++ "/transactions")
    (_pagination_params page_size after before ++
      _compact_params
        [("filter[status]", status.map Json.str),
         ("filter[since]", since.map Json.str),
         ("filter[until]", until_.map Json.str),
         ("filter[tag]", tag.map Json.str)]) none

/-- `UpAPI.list_attachments`. -/
def list_attachments_req (cfg : UpAPIConfig) (transaction_id : Option String)
    (page_size : Option Int) (after before : Option String) : Request :=
  mkRequest cfg "GET" "/attachments"
    (_pagination_params page_size after before ++
      _compact_params [("filter[transaction]", transaction_id.map Json.str)]) none

/-- `UpAPI.get_attachment`. -/
def get_attachment_req (cfg : UpAPIConfig) (attachment_id : String) : Request :=
  mkRequest cfg "GET" ("/attachments/" ++ attachment_id) [] none

/-- `UpAPI.list_categories`. -/
def list_categories_req (cfg : UpAPIConfig) (parent_category_id : Option String)
    (page_size : Option Int) (after before : Option String) : Request :=
  mkRequest cfg "GET" "/categories"
    (_pagination_params page_size after before ++
      _compact_params [("filter[parent]", parent_category_id.map Json.str)]) none

/-- `UpAPI.get_category`. -/
def get_category_req (cfg : UpAPIConfig) (category_id : String) : Request :=
  mkRequest cfg "GET" ("/categories/" ++ category_id) [] none

/-- `UpAPI.categorize_transaction`: POST to the category relationship path
with the `{"data": {"type": "categories", "id": category_id}}` payload. -/
def categorize_transaction_req (cfg : UpAPIConfig)
    (transaction_id category_id : String) : Request :=
  mkRequest cfg "POST"
    ("/transactions/" ++ transaction_id ++ "/relationships/category") []
    (some (Json.obj [("data",
      Json.obj [("type", Json.str "categories"), ("id", Json.str category_id)])]))

/-- `UpAPI.remove_transaction_category`: DELETE on the category relationship
path; the source passes no `json=` argument, so the request has no body. -/
def remove_transaction_category_req (cfg : UpAPIConfig)
    (transaction_id : String) : Request :=
  mkRequest cfg "DELETE"
    ("/transactions/" ++ transaction_id ++ "/relationships/category") [] none

/-- `UpAPI.list_tags`. -/
def list_tags_req (cfg : UpAPIConfig) : Request :=
  mkRequest cfg "GET" "/tags" [] none

/-- The validation message of the tag-mutation methods. -/
def tagErrorMessage : String := "At least one tag is required."

/-- The `{"data": [{"type": "tags", "id": tag} for tag in tags]}` payload of
both tag-mutation methods. -/
def tagsPayload (tags : List String) : Json :=
  Json.obj [("data",
    Json.arr (tags.map (fun tag => Json.obj [("type", Json.str "tags"), ("id", Json.str tag)])))]

/-- `UpAPI.add_tags_to_transaction`: `if not tags: raise ValueError(...)`,
else POST to the tags relationship path with the tags payload. -/
def add_tags_to_transaction_req (cfg : UpAPIConfig) (transaction_id : String)
    (tags : List String) : Except PyError Request :=
  if tags.isEmpty then
    Except.error (PyError.valueError tagErrorMessage)
  else
    Except.ok (mkRequest cfg "POST"
      ("/transactions/" ++ transaction_id ++ "/relationships/tags") []
      (some (tagsPayload tags)))

/-- `UpAPI.remove_tags_from_transaction`: same validation and payload as
adding, but with the DELETE method. -/
def remove_tags_from_transaction_req (cfg : UpAPIConfig) (transaction_id : String)
    (tags : List String) : Except PyError Request :=
  if tags.isEmpty then
    Except.error (PyError.valueError tagErrorMessage)
  else
    Except.ok (mkRequest cfg "DELETE"
      ("/transactions/" ++ transaction_id ++ "/relationships/tags") []
      (some (tagsPayload tags)))

/-- `UpAPI.list_webhooks`. -/
def list_webhooks_req (cfg : UpAPIConfig) (page_size : Option Int)
    (after before : Option String) : Request :=
  mkRequest cfg "GET" "/webhooks" (_pagination_params page_size after before) none

/-- The compacted attributes dict of `UpAPI.create_webhook`. -/
def webhookAttributes (url : String) (description secret_key : Option String) :
    List (String × Json) :=
  _compact_params
    [("url", some (Json.str url)),
     ("description", description.map Json.str),
     ("secretKey", secret_key.map Json.str)]

/-- `UpAPI.create_webhook`: POST /webhooks with the
`{"data": {"type": "webhooks", "attributes": ...}}` payload. -/
def create_webhook_req (cfg : UpAPIConfig) (url : String)
    (description secret_key : Option String) : Request :=
  mkRequest cfg "POST" "/webhooks" []
    (some (Json.obj [("data",
      Json.obj [("type", Json.str "webhooks"),
                ("attributes", Json.obj (webhookAttributes url description secret_key))])]))

/-- `UpAPI.get_webhook`. -/
def get_webhook_req (cfg : UpAPIConfig) (webhook_id : String) : Request :=
  mkRequest cfg "GET" ("/webhooks/" ++ webhook_id) [] none

/-- `UpAPI.delete_webhook`: DELETE with no `json=` argument, hence no body. -/
def delete_webhook_req (cfg : UpAPIConfig) (webhook_id : String) : Request :=
  mkRequest cfg "DELETE" ("/webhooks/" ++ webhook_id) [] none

/-- `UpAPI.ping_webhook`: POST with no `json=` argument, hence no body. -/
def ping_webhook_req (cfg : UpAPIConfig) (webhook_id : String) : Request :=
  mkRequest cfg "POST" ("/webhooks/" ++ webhook_id ++ "/ping") [] none

/-- `UpAPI.list_webhook_logs`. -/
def list_webhook_logs_req (cfg : UpAPIConfig) (webhook_id : String)
    (page_size : Option Int) (after before : Option String) : Request :=
  mkRequest cfg "GET" ("/webhooks/" ++ webhook_id ++ "/logs")
    (_pagination_params page_size after before) none

/-- The full `UpAPI.categorize_transaction` call: build and issue. -/
def categorize_transaction (cfg : UpAPIConfig) (net : Request → NetOutcome)
    (transaction_id category_id : String) : List Request × Except PyError Json :=
  runClientOp net (Except.ok (categorize_transaction_req cfg transaction_id category_id))

/-- The full `UpAPI.add_tags_to_transaction` call: validate, build, issue. -/
def add_tags_to_transaction (cfg : UpAPIConfig) (net : Request → NetOutcome)
    (transaction_id : String) (tags : List String) : List Request × Except PyError Json :=
  runClientOp net (add_tags_to_transaction_req cfg transaction_id tags)

/-- The full `UpAPI.remove_tags_from_transaction` call. -/
def remove_tags_from_transaction (cfg : UpAPIConfig) (net : Request → NetOutcome)
    (transaction_id : String) (tags : List String) : List Request × Except PyError Json :=
  runClientOp net (remove_tags_from_transaction_req cfg transaction_id tags)

/-- `UpAPI.__init__`: raises `ValueError` when the configured token is empty
(Python `if not config.token`), else holds the config. -/
def init (config : UpAPIConfig) : Except PyError UpAPIConfig :=
  if config.token = "" then
    Except.error (PyError.valueError "A non-empty Personal Access Token is required.")
  else
    Except.ok config

end UpAPI

/-- server.py `_resolve_token_from_request`: the bearer token of the active
FastMCP request, or `none` when there is no request context, no access token,
or the attached token string is falsy (empty). The input collapses those
context states into `accessToken : Option String`. -/
def _resolve_token_from_request (accessToken : Option String) : Option String :=
  match accessToken with
  | some t => if t = "" then none else some t
  | none => none

/-- Python's `or` on `Optional[str]`: the left operand unless it is falsy
(`None` or the empty string), else the right operand. -/
def pyOr (a b : Option String) : Option String :=
  match a with
  | some t => if t = "" then b else some t
  | none => b

/-- The configuration error message of server.py `_get_client`. -/
def configErrorMessage : String :=
  "An Up API token is required. Either include a bearer token in the FastMCP request or set the UP_API_TOKEN environment variable."

/-- server.py `_get_client`: resolve the token as
`_resolve_token_from_request() or os.environ.get("UP_API_TOKEN")`, raise
`RuntimeError` when the result is falsy, else construct the client
(`UpAPI(UpAPIConfig(token=token))`). -/
def _get_client (accessToken envToken : Option String) : Except PyError UpAPIConfig :=
  match pyOr (_resolve_token_from_request accessToken) envToken with
  | none => Except.error (PyError.runtimeError configErrorMessage)
  | some t =>
      if t = "" then Except.error (PyError.runtimeError configErrorMessage)
      else UpAPI.init (UpAPIConfig.ofToken t)

/-- server.py `_run_api_call`: re-raise `UpAPIError` as `RuntimeError` with
the same message; every other outcome passes through unchanged. -/
def _run_api_call {α : Type} : Except PyError α → Except PyError α
  | Except.error (PyError.upAPIError m) => Except.error (PyError.runtimeError m)
  | r => r

/-- The shared shape of every `@mcp.tool` function in server.py:
`client = _get_client()` first, then `_run_api_call(lambda: <client method>)`.
A `_get_client` failure propagates before any request is issued. -/
def runTool (accessToken envToken : Option String) (net : Request → NetOutcome)
    (op : UpAPIConfig → Except PyError Request) : List Request × Except PyError Json :=
  match _get_client accessToken envToken with
  | Except.error e => ([], Except.error e)
  | Except.ok cfg =>
      let r := runClientOp net (op cfg)
      (r.1, _run_api_call r.2)

namespace server

/-- server.py tool `up_ping`. -/
def up_ping (a e : Option String) (net : Request → NetOutcome) :
    List Request × Except PyError Json :=
  runTool a e net (fun cfg => Except.ok (UpAPI.ping_req cfg))

/-- server.py tool `list_accounts` (`cursor_after`/`cursor_before` forwarded
as `after`/`before`). -/
def list_accounts (a e : Option String) (net : Request → NetOutcome)
    (page_size : Option Int) (cursor_after cursor_before : Option String) :
    List Request × Except PyError Json :=
  runTool a e net (fun cfg =>
    Except.ok (UpAPI.list_accounts_req cfg page_size cursor_after cursor_before))

/-- server.py tool `get_account`. -/
def get_account (a e : Option String) (net : Request → NetOutcome)
    (account_id : String) : List Request × Except PyError Json :=
  runTool a e net (fun cfg => Except.ok (UpAPI.get_account_req cfg account_id))

/-- server.py tool `list_transactions`. -/
def list_transactions (a e : Option String) (net : Request → NetOutcome)
    (status since until_ category tag : Option String)
    (page_size : Option Int) (cursor_after cursor_before : Option String) :
    List Request × Except PyError Json :=
  runTool a e net (fun cfg =>
    Except.ok (UpAPI.list_transactions_req cfg status since until_ category tag
      page_size cursor_after cursor_before))

/-- server.py tool `get_transaction`. -/
def get_transaction (a e : Option String) (net : Request → NetOutcome)
    (transaction_id : String) : List Request × Except PyError Json :=
  runTool a e net (fun cfg => Except.ok (UpAPI.get_transaction_req cfg transaction_id))

/-- server.py tool `list_account_transactions`. -/
def list_account_transactions (a e : Option String) (net : Request → NetOutcome)
    (account_id : String) (status since until_ tag : Option String)
    (page_size : Option Int) (cursor_after cursor_before : Option String) :
    List Request × Except PyError Json :=
  runTool a e net (fun cfg =>
    Except.ok (UpAPI.list_transactions_by_account_req cfg account_id status since
      until_ tag page_size cursor_after cursor_before))

/-- server.py tool `list_attachments`. -/
def list_attachments (a e : Option String) (net : Request → NetOutcome)
    (transaction_id : Option String) (page_size : Option Int)
    (cursor_after cursor_before : Option String) :
    List Request × Except PyError Json :=
  runTool a e net (fun cfg =>
    Except.ok (UpAPI.list_attachments_req cfg transaction_id page_size
      cursor_after cursor_before))

/-- server.py tool `get_attachment`. -/
def get_attachment (a e : Option String) (net : Request → NetOutcome)
    (attachment_id : String) : List Request × Except PyError Json :=
  runTool a e net (fun cfg => Except.ok (UpAPI.get_attachment_req cfg attachment_id))

/-- server.py tool `list_categories`. -/
def list_categories (a e : Option String) (net : Request → NetOutcome)
    (parent_category_id : Option String) (page_size : Option Int)
    (cursor_after cursor_before : Option String) :
    List Request × Except PyError Json :=
  runTool a e net (fun cfg =>
    Except.ok (UpAPI.list_categories_req cfg parent_category_id page_size
      cursor_after cursor_before))

/-- server.py tool `get_category`. -/
def get_category (a e : Option String) (net : Request → NetOutcome)
    (category_id : String) : List Request × Except PyError Json :=
  runTool a e net (fun cfg => Except.ok (UpAPI.get_category_req cfg category_id))

/-- server.py tool `categorize_transaction`. -/
def categorize_transaction (a e : Option String) (net : Request → NetOutcome)
    (transaction_id category_id : String) : List Request × Except PyError Json :=
  runTool a e net (fun cfg =>
    Except.ok (UpAPI.categorize_transaction_req cfg transaction_id category_id))

/-- server.py tool `clear_transaction_category`. -/
def clear_transaction_category (a e : Option String) (net : Request → NetOutcome)
    (transaction_id : String) : List Request × Except PyError Json :=
  runTool a e net (fun cfg =>
    Except.ok (UpAPI.remove_transaction_category_req cfg transaction_id))

/-- server.py tool `list_tags`. -/
def list_tags (a e : Option String) (net : Request → NetOutcome) :
    List Request × Except PyError Json :=
  runTool a e net (fun cfg => Except.ok (UpAPI.list_tags_req cfg))

/-- server.py tool `add_tags_to_transaction`. -/
def add_tags_to_transaction (a e : Option String) (net : Request → NetOutcome)
    (transaction_id : String) (tags : List String) :
    List Request × Except PyError Json :=
  runTool a e net (fun cfg =>
    UpAPI.add_tags_to_transaction_req cfg transaction_id tags)

/-- server.py tool `remove_tags_from_transaction`. -/
def remove_tags_from_transaction (a e : Option String) (net : Request → NetOutcome)
    (transaction_id : String) (tags : List String) :
    List Request × Except PyError Json :=
  runTool a e net (fun cfg =>
    UpAPI.remove_tags_from_transaction_req cfg transaction_id tags)

/-- server.py tool `list_webhooks`. -/
def list_webhooks (a e : Option String) (net : Request → NetOutcome)
    (page_size : Option Int) (cursor_after cursor_before : Option String) :
    List Request × Except PyError Json :=
  runTool a e net (fun cfg =>
    Except.ok (UpAPI.list_webhooks_req cfg page_size cursor_after cursor_before))

/-- server.py tool `create_webhook`. -/
def create_webhook (a e : Option String) (net : Request → NetOutcome)
    (url : String) (description secret_key : Option String) :
    List Request × Except PyError Json :=
  runTool a e net (fun cfg =>
    Except.ok (UpAPI.create_webhook_req cfg url description secret_key))

/-- server.py tool `get_webhook`. -/
def get_webhook (a e : Option String) (net : Request → NetOutcome)
    (webhook_id : String) : List Request × Except PyError Json :=
  runTool a e net (fun cfg => Except.ok (UpAPI.get_webhook_req cfg webhook_id))

/-- server.py tool `delete_webhook`. -/
def delete_webhook (a e : Option String) (net : Request → NetOutcome)
    (webhook_id : String) : List Request × Except PyError Json :=
  runTool a e net (fun cfg => Except.ok (UpAPI.delete_webhook_req cfg webhook_id))

/-- server.py tool `ping_webhook`. -/
def ping_webhook (a e : Option String) (net : Request → NetOutcome)
    (webhook_id : String) : List Request × Except PyError Json :=
  runTool a e net (fun cfg => Except.ok (UpAPI.ping_webhook_req cfg webhook_id))

/-- server.py tool `list_webhook_logs`. -/
def list_webhook_logs (a e : Option String) (net : Request → NetOutcome)
    (webhook_id : String) (page_size : Option Int)
    (cursor_after cursor_before : Option String) :
    List Request × Except PyError Json :=
  runTool a e net (fun cfg =>
    Except.ok (UpAPI.list_webhook_logs_req cfg webhook_id page_size
      cursor_after cursor_before))

end server

/-- Key membership test on an association list (the query dict). -/
def hasKey {α : Type} (l : List (String × α)) (k : String) : Bool :=
  l.any (fun p => p.1 == k)

/-- Substring occurrence on character lists. -/
def charsContain (hay needle : List Char) : Bool :=
  needle.isPrefixOf hay ||
    match hay with
    | [] => false
    | _ :: t => charsContain t needle

/-- `sub` occurs as a contiguous substring of `s`. -/
def strContains (s sub : String) : Bool :=
  charsContain s.data sub.data

/-- A concrete client configuration used in closed instances. -/
def cfg0 : UpAPIConfig := UpAPIConfig.ofToken "token0"

/-- A concrete network oracle: the upstream is unreachable. -/
def net0 : Request → NetOutcome :=
  fun _ => NetOutcome.transportError "connection refused"

/-- The concrete 404 response of the specification's error-handling example:
status 404 with JSON body of the errors array containing title "Not Found". -/
def resp404 : UpResponse :=
  { status := 404
    text := "\x7b\"errors\":[\x7b\"title\":\"Not Found\"\x7d]\x7d"
    parsed := some (Json.obj [("errors", Json.arr [Json.obj [("title", Json.str "Not Found")]])]) }

/-- Membership in a compacted dict is exactly membership with a `some` value
in the original dict. -/
theorem mem_compact_iff {α : Type} (l : List (String × Option α)) (k : String) (v : α) :
    (k, v) ∈ _compact_params l ↔ (k, some v) ∈ l := by
  induction l with
  | nil => simp [_compact_params]
  | cons p rest ih =>
    obtain ⟨pk, pv⟩ := p
    cases pv <;> simp_all [_compact_params]

/-- A key occurs in a compacted dict iff it occurs in the original dict with
a present value. -/
theorem hasKey_compact {α : Type} (l : List (String × Option α)) (k : String) :
    hasKey (_compact_params l) k = l.any (fun p => p.1 == k && p.2.isSome) := by
  induction l with
  | nil => rfl
  | cons p rest ih =>
    obtain ⟨pk, pv⟩ := p
    cases pv <;> simp_all [_compact_params, hasKey]

/-- Key occurrence distributes over merged dicts. -/
theorem hasKey_append {α : Type} (l₁ l₂ : List (String × α)) (k : String) :
    hasKey (l₁ ++ l₂) k = (hasKey l₁ k || hasKey l₂ k) := by
  simp [hasKey]

/-- C1: for every client operation and every optional parameter (pagination,
filter, or JSON-body attribute), if the caller does not supply the parameter
(its value is `none`), the key for that parameter does not occur in the query
parameters, respectively the body attributes, of the request built for the
call. One conjunct per (operation, optional parameter) pair of up_api.py. -/
theorem claim_C1_absent_params_omitted :
    (∀ cfg a b, hasKey (UpAPI.list_accounts_req cfg none a b).params "page[size]" = false) ∧
    (∀ cfg ps b, hasKey (UpAPI.list_accounts_req cfg ps none b).params "page[after]" = false) ∧
    (∀ cfg ps a, hasKey (UpAPI.list_accounts_req cfg ps a none).params "page[before]" = false) ∧
    (∀ cfg si u c t ps a b, hasKey (UpAPI.list_transactions_req cfg none si u c t ps a b).params "filter[status]" = false) ∧
    (∀ cfg st u c t ps a b, hasKey (UpAPI.list_transactions_req cfg st none u c t ps a b).params "filter[since]" = false) ∧
    (∀ cfg st si c t ps a b, hasKey (UpAPI.list_transactions_req cfg st si none c t ps a b).params "filter[until]" = false) ∧
    (∀ cfg st si u t ps a b, hasKey (UpAPI.list_transactions_req cfg st si u none t ps a b).params "filter[category]" = false) ∧
    (∀ cfg st si u c ps a b, hasKey (UpAPI.list_transactions_req cfg st si u c none ps a b).params "filter[tag]" = false) ∧
    (∀ cfg st si u c t a b, hasKey (UpAPI.list_transactions_req cfg st si u c t none a b).params "page[size]" = false) ∧
    (∀ cfg st si u c t ps b, hasKey (UpAPI.list_transactions_req cfg st si u c t ps none b).params "page[after]" = false) ∧
    (∀ cfg st si u c t ps a, hasKey (UpAPI.list_transactions_req cfg st si u c t ps a none).params "page[before]" = false) ∧
    (∀ cfg aid si u t ps a b, hasKey (UpAPI.list_transactions_by_account_req cfg aid none si u t ps a b).params "filter[status]" = false) ∧
    (∀ cfg aid st u t ps a b, hasKey (UpAPI.list_transactions_by_account_req cfg aid st none u t ps a b).params "filter[since]" = false) ∧
    (∀ cfg aid st si t ps a b, hasKey (UpAPI.list_transactions_by_account_req cfg aid st si none t ps a b).params "filter[until]" = false) ∧
    (∀ cfg aid st si u ps a b, hasKey (UpAPI.list_transactions_by_account_req cfg aid st si u none ps a b).params "filter[tag]" = false) ∧
    (∀ cfg aid st si u t a b, hasKey (UpAPI.list_transactions_by_account_req cfg aid st si u t none a b).params "page[size]" = false) ∧
    (∀ cfg aid st si u t ps b, hasKey (UpAPI.list_transactions_by_account_req cfg aid st si u t ps none b).params "page[after]" = false) ∧
    (∀ cfg aid st si u t ps a, hasKey (UpAPI.list_transactions_by_account_req cfg aid st si u t ps a none).params "page[before]" = false) ∧
    (∀ cfg ps a b, hasKey (UpAPI.list_attachments_req cfg none ps a b).params "filter[transaction]" = false) ∧
    (∀ cfg tid a b, hasKey (UpAPI.list_attachments_req cfg tid none a b).params "page[size]" = false) ∧
    (∀ cfg tid ps b, hasKey (UpAPI.list_attachments_req cfg tid ps none b).params "page[after]" = false) ∧
    (∀ cfg tid ps a, hasKey (UpAPI.list_attachments_req cfg tid ps a none).params "page[before]" = false) ∧
    (∀ cfg ps a b, hasKey (UpAPI.list_categories_req cfg none ps a b).params "filter[parent]" = false) ∧
    (∀ cfg pc a b, hasKey (UpAPI.list_categories_req cfg pc none a b).params "page[size]" = false) ∧
    (∀ cfg pc ps b, hasKey (UpAPI.list_categories_req cfg pc ps none b).params "page[after]" = false) ∧
    (∀ cfg pc ps a, hasKey (UpAPI.list_categories_req cfg pc ps a none).params "page[before]" = false) ∧
    (∀ cfg a b, hasKey (UpAPI.list_webhooks_req cfg none a b).params "page[size]" = false) ∧
    (∀ cfg ps b, hasKey (UpAPI.list_webhooks_req cfg ps none b).params "page[after]" = false) ∧
    (∀ cfg ps a, hasKey (UpAPI.list_webhooks_req cfg ps a none).params "page[before]" = false) ∧
    (∀ cfg wid a b, hasKey (UpAPI.list_webhook_logs_req cfg wid none a b).params "page[size]" = false) ∧
    (∀ cfg wid ps b, hasKey (UpAPI.list_webhook_logs_req cfg wid ps none b).params "page[after]" = false) ∧
    (∀ cfg wid ps a, hasKey (UpAPI.list_webhook_logs_req cfg wid ps a none).params "page[before]" = false) ∧
    (∀ url sk, hasKey (UpAPI.webhookAttributes url none sk) "description" = false) ∧
    (∀ url d, hasKey (UpAPI.webhookAttributes url d none) "secretKey" = false) := by
  refine ⟨?_, ?_, ?_, ?_, ?_, ?_, ?_, ?_, ?_, ?_, ?_, ?_, ?_, ?_, ?_, ?_, ?_,
    ?_, ?_, ?_, ?_, ?_, ?_, ?_, ?_, ?_, ?_, ?_, ?_, ?_, ?_, ?_, ?_, ?_⟩ <;>
    intros <;>
    simp [UpAPI.list_accounts_req, UpAPI.list_transactions_req,
      UpAPI.list_transactions_by_account_req, UpAPI.list_attachments_req,
      UpAPI.list_categories_req, UpAPI.list_webhooks_req,
      UpAPI.list_webhook_logs_req, UpAPI.webhookAttributes, mkRequest,
      UpAPI._pagination_params, hasKey_append, hasKey_compact]

/-- C2: pagination `page_size=20, cursor_after="xyz"`, `cursor_before` absent
serializes to exactly `page[size]=20` and `page[after]=xyz` with no
`page[before]` key; and in general every present optional parameter appears
under its documented key with its value unchanged, for every optional
parameter of up_api.py. -/
theorem claim_C2_present_params_serialized :
    (UpAPI._pagination_params (some 20) (some "xyz") none =
      [("page[size]", Json.int 20), ("page[after]", Json.str "xyz")]) ∧
    (∀ cfg, (UpAPI.list_accounts_req cfg (some 20) (some "xyz") none).params =
      [("page[size]", Json.int 20), ("page[after]", Json.str "xyz")]) ∧
    (hasKey (UpAPI._pagination_params (some 20) (some "xyz") none) "page[before]" = false) ∧
    (∀ n a b, ("page[size]", Json.int n) ∈ UpAPI._pagination_params (some n) a b) ∧
    (∀ ps s b, ("page[after]", Json.str s) ∈ UpAPI._pagination_params ps (some s) b) ∧
    (∀ ps a s, ("page[before]", Json.str s) ∈ UpAPI._pagination_params ps a (some s)) ∧
    (∀ cfg s si u c t ps a b, ("filter[status]", Json.str s) ∈
      (UpAPI.list_transactions_req cfg (some s) si u c t ps a b).params) ∧
    (∀ cfg st s u c t ps a b, ("filter[since]", Json.str s) ∈
      (UpAPI.list_transactions_req cfg st (some s) u c t ps a b).params) ∧
    (∀ cfg st si s c t ps a b, ("filter[until]", Json.str s) ∈
      (UpAPI.list_transactions_req cfg st si (some s) c t ps a b).params) ∧
    (∀ cfg st si u s t ps a b, ("filter[category]", Json.str s) ∈
      (UpAPI.list_transactions_req cfg st si u (some s) t ps a b).params) ∧
    (∀ cfg st si u c s ps a b, ("filter[tag]", Json.str s) ∈
      (UpAPI.list_transactions_req cfg st si u c (some s) ps a b).params) ∧
    (∀ cfg st si u c t n a b, ("page[size]", Json.int n) ∈
      (UpAPI.list_transactions_req cfg st si u c t (some n) a b).params) ∧
    (∀ cfg aid st si u s ps a b, ("filter[tag]", Json.str s) ∈
      (UpAPI.list_transactions_by_account_req cfg aid st si u (some s) ps a b).params) ∧
    (∀ cfg s ps a b, ("filter[transaction]", Json.str s) ∈
      (UpAPI.list_attachments_req cfg (some s) ps a b).params) ∧
    (∀ cfg s ps a b, ("filter[parent]", Json.str s) ∈
      (UpAPI.list_categories_req cfg (some s) ps a b).params) ∧
    (∀ url d sk, ("url", Json.str url) ∈ UpAPI.webhookAttributes url d sk) ∧
    (∀ url s sk, ("description", Json.str s) ∈ UpAPI.webhookAttributes url (some s) sk) ∧
    (∀ url d s, ("secretKey", Json.str s) ∈ UpAPI.webhookAttributes url d (some s)) := by
  refine ⟨?_, ?_, ?_, ?_, ?_, ?_, ?_, ?_, ?_, ?_, ?_, ?_, ?_, ?_, ?_, ?_, ?_, ?_⟩ <;>
    intros <;>
    first
    | rfl
    | simp [UpAPI.list_accounts_req, UpAPI.list_transactions_req,
        UpAPI.list_transactions_by_account_req, UpAPI.list_attachments_req,
        UpAPI.list_categories_req, UpAPI.webhookAttributes, mkRequest,
        UpAPI._pagination_params, _compact_params, hasKey_compact,
        mem_compact_iff]

/-- C3: for every exposed tool operation the token used is the inbound
request's bearer token when a non-empty one is present, otherwise the
environment token; when neither yields a non-empty token the call fails with
the configuration error and issues zero HTTP requests. Every tool of
server.py is `runTool` applied to its client request builder. -/
theorem claim_C3_token_resolution :
    (∀ (t : String) (e : Option String), t ≠ "" →
      _get_client (some t) e = Except.ok (UpAPIConfig.ofToken t)) ∧
    (∀ (a e : Option String) (t : String),
      _resolve_token_from_request a = none → e = some t → t ≠ "" →
      _get_client a e = Except.ok (UpAPIConfig.ofToken t)) ∧
    (∀ (a e : Option String) (net : Request → NetOutcome)
        (op : UpAPIConfig → Except PyError Request),
      _resolve_token_from_request a = none → (e = none ∨ e = some "") →
      runTool a e net op = ([], Except.error (PyError.runtimeError configErrorMessage))) := by
  refine ⟨?_, ?_, ?_⟩
  · intro t e ht
    simp [_get_client, _resolve_token_from_request, pyOr, ht, UpAPI.init,
      UpAPIConfig.ofToken]
  · intro a e t ha he ht
    subst he
    simp [_get_client, ha, pyOr, ht, UpAPI.init, UpAPIConfig.ofToken]
  · intro a e net op ha he
    rcases he with he | he <;> subst he <;>
      simp [runTool, _get_client, ha, pyOr]

/-- C3 witness: the three parts of the token-resolution theorem at concrete
inputs. -/
theorem claim_C3_token_resolution_witness :
    _get_client (some "tok") none = Except.ok (UpAPIConfig.ofToken "tok") ∧
    _get_client none (some "envtok") = Except.ok (UpAPIConfig.ofToken "envtok") ∧
    runTool none none net0 (fun cfg => Except.ok (UpAPI.ping_req cfg)) =
      ([], Except.error (PyError.runtimeError configErrorMessage)) :=
  ⟨claim_C3_token_resolution.1 "tok" none (by decide),
   claim_C3_token_resolution.2.1 none (some "envtok") "envtok" rfl rfl (by decide),
   claim_C3_token_resolution.2.2 none none net0
     (fun cfg => Except.ok (UpAPI.ping_req cfg)) rfl (Or.inl rfl)⟩

/-- C4: both tag-mutation operations, called with an empty tag sequence,
raise the local validation `ValueError` and issue zero HTTP requests; the
same surfaces through the exposed tools when a token is available. -/
theorem claim_C4_empty_tags_rejected :
    ∀ (cfg : UpAPIConfig) (net : Request → NetOutcome) (tid : String),
      UpAPI.add_tags_to_transaction cfg net tid [] =
        ([], Except.error (PyError.valueError UpAPI.tagErrorMessage)) ∧
      UpAPI.remove_tags_from_transaction cfg net tid [] =
        ([], Except.error (PyError.valueError UpAPI.tagErrorMessage)) ∧
      server.add_tags_to_transaction (some "tok") none net tid [] =
        ([], Except.error (PyError.valueError UpAPI.tagErrorMessage)) ∧
      server.remove_tags_from_transaction (some "tok") none net tid [] =
        ([], Except.error (PyError.valueError UpAPI.tagErrorMessage)) :=
  fun _ _ _ => ⟨rfl, rfl, rfl, rfl⟩

/-- C5: a non-success upstream status always produces the single normalized
`UpAPIError`, and for status 404 with body
`{"errors":[{"title":"Not Found"}]}` the message contains both "404" and
"Not Found". -/
theorem claim_C5_error_normalization :
    (∀ resp : UpResponse, is_success resp.status = false →
      handleResponse resp = Except.error (PyError.upAPIError (upErrorMessage resp))) ∧
    (handleResponse resp404 = Except.error (PyError.upAPIError (upErrorMessage resp404))) ∧
    strContains (upErrorMessage resp404) "404" = true ∧
    strContains (upErrorMessage resp404) "Not Found" = true := by
  refine ⟨?_, rfl, by decide, by decide⟩
  intro resp h
  simp [handleResponse, h]

/-- C5 witness: the universal part applied to the concrete 404 response. -/
theorem claim_C5_error_normalization_witness :
    handleResponse resp404 = Except.error (PyError.upAPIError (upErrorMessage resp404)) :=
  claim_C5_error_normalization.1 resp404 (by decide)

/-- C6: category assignment issues exactly one POST to the transaction's
category-relationship path whose JSON body is exactly
`{"data": {"type": "categories", "id": category_id}}`. -/
theorem claim_C6_categorize_body :
    ∀ (cfg : UpAPIConfig) (net : Request → NetOutcome) (tid cid : String),
      (UpAPI.categorize_transaction cfg net tid cid).1 =
        [UpAPI.categorize_transaction_req cfg tid cid] ∧
      (UpAPI.categorize_transaction_req cfg tid cid).method = "POST" ∧
      (UpAPI.categorize_transaction_req cfg tid cid).url =
        cfg.base_url ++ ("/transactions/" ++ tid ++ "/relationships/category") ∧
      (UpAPI.categorize_transaction_req cfg tid cid).body =
        some (Json.obj [("data",
          Json.obj [("type", Json.str "categories"), ("id", Json.str cid)])]) :=
  fun _ _ _ _ => ⟨rfl, rfl, rfl, rfl⟩

/-- C7 counterexample: three mutating operations build their request with no
JSON body at all — `remove_transaction_category`, `delete_webhook` and
`ping_webhook` pass no `json=` argument — so the claim that every mutating
operation constructs a structured JSON body is false on the code. -/
theorem claim_C7_counterexample :
    (UpAPI.remove_transaction_category_req cfg0 "tx-1").body = none ∧
    (UpAPI.delete_webhook_req cfg0 "wh-1").body = none ∧
    (UpAPI.ping_webhook_req cfg0 "wh-1").body = none :=
  ⟨rfl, rfl, rfl⟩

/-- C7 amended: the mutating operations that carry a body — assign category,
add tags, remove tags, create webhook — construct a structured JSON body
wrapping `{type, id}` or `{type, attributes}` objects; remove category,
delete webhook and ping webhook issue their request with no JSON body. -/
theorem claim_C7_amended_mutation_bodies :
    (∀ cfg tid cid, (UpAPI.categorize_transaction_req cfg tid cid).body =
      some (Json.obj [("data",
        Json.obj [("type", Json.str "categories"), ("id", Json.str cid)])])) ∧
    (∀ cfg tid tags, tags ≠ [] → ∃ req,
      UpAPI.add_tags_to_transaction_req cfg tid tags = Except.ok req ∧
      req.body = some (Json.obj [("data",
        Json.arr (tags.map (fun tag =>
          Json.obj [("type", Json.str "tags"), ("id", Json.str tag)])))])) ∧
    (∀ cfg tid tags, tags ≠ [] → ∃ req,
      UpAPI.remove_tags_from_transaction_req cfg tid tags = Except.ok req ∧
      req.body = some (Json.obj [("data",
        Json.arr (tags.map (fun tag =>
          Json.obj [("type", Json.str "tags"), ("id", Json.str tag)])))])) ∧
    (∀ cfg url d sk, (UpAPI.create_webhook_req cfg url d sk).body =
      some (Json.obj [("data",
        Json.obj [("type", Json.str "webhooks"),
                  ("attributes", Json.obj (UpAPI.webhookAttributes url d sk))])])) ∧
    (∀ cfg tid, (UpAPI.remove_transaction_category_req cfg tid).body = none) ∧
    (∀ cfg wid, (UpAPI.delete_webhook_req cfg wid).body = none) ∧
    (∀ cfg wid, (UpAPI.ping_webhook_req cfg wid).body = none) := by
  refine ⟨fun _ _ _ => rfl, ?_, ?_, fun _ _ _ _ => rfl,
    fun _ _ => rfl, fun _ _ => rfl, fun _ _ => rfl⟩ <;>
  · intro cfg tid tags h
    match tags with
    | [] => exact absurd rfl h
    | hd :: tl =>
        exact ⟨_, rfl, rfl⟩

/-- C7 witness: the amended tag-payload parts at a concrete nonempty list. -/
theorem claim_C7_amended_mutation_bodies_witness :
    (∃ req, UpAPI.add_tags_to_transaction_req cfg0 "tx-1" ["groceries"] = Except.ok req ∧
      req.body = some (Json.obj [("data",
        Json.arr (["groceries"].map (fun tag =>
          Json.obj [("type", Json.str "tags"), ("id", Json.str tag)])))])) ∧
    (∃ req, UpAPI.remove_tags_from_transaction_req cfg0 "tx-1" ["groceries"] = Except.ok req ∧
      req.body = some (Json.obj [("data",
        Json.arr (["groceries"].map (fun tag =>
          Json.obj [("type", Json.str "tags"), ("id", Json.str tag)])))])) :=
  ⟨claim_C7_amended_mutation_bodies.2.1 cfg0 "tx-1" ["groceries"] (by simp),
   claim_C7_amended_mutation_bodies.2.2.1 cfg0 "tx-1" ["groceries"] (by simp)⟩

/-- C8: compaction removes exactly the `None`-valued entries; an entry whose
value is present but falsy (integer 0, empty string, `False`) is kept under
its key with its value: `page_size=0` serializes as `page[size]=0`, an
empty-string status filter is sent, and a present `False` survives
compaction. -/
theorem claim_C8_falsy_values_kept :
    (∀ (α : Type) (l : List (String × Option α)) (k : String) (v : α),
      (k, v) ∈ _compact_params l ↔ (k, some v) ∈ l) ∧
    (∀ a b, ("page[size]", Json.int 0) ∈ UpAPI._pagination_params (some 0) a b) ∧
    (∀ cfg, ("filter[status]", Json.str "") ∈
      (UpAPI.list_transactions_req cfg (some "") none none none none none none none).params) ∧
    (("flag", Json.bool false) ∈ _compact_params [("flag", some (Json.bool false))]) := by
  refine ⟨fun α l k v => mem_compact_iff l k v, ?_, ?_, ?_⟩ <;>
    intros <;>
    simp [UpAPI._pagination_params, UpAPI.list_transactions_req, mkRequest,
      _compact_params, mem_compact_iff]

/-- C8 witness: the compaction characterization applied at a concrete dict. -/
theorem claim_C8_falsy_values_kept_witness :
    ("k", Json.int 0) ∈ _compact_params [("k", some (Json.int 0)), ("gone", none)] :=
  (claim_C8_falsy_values_kept.1 Json [("k", some (Json.int 0)), ("gone", none)]
    "k" (Json.int 0)).mpr (by simp)

/-- C9: the dispatch translator `_run_api_call` re-raises only `UpAPIError`
as `RuntimeError`; a `ValueError` (the empty-tag validation failure) passes
through untranslated, so at the tool interface an empty-tag failure is a
distinct error kind from the configuration and upstream `RuntimeError`s. -/
theorem claim_C9_translator_selectivity :
    (∀ (α : Type) (m : String), @_run_api_call α (Except.error (PyError.valueError m)) =
      Except.error (PyError.valueError m)) ∧
    (∀ (α : Type) (m : String), @_run_api_call α (Except.error (PyError.upAPIError m)) =
      Except.error (PyError.runtimeError m)) ∧
    (∀ (α : Type) (v : α), @_run_api_call α (Except.ok v) = Except.ok v) ∧
    (∀ (α : Type) (m : String), @_run_api_call α (Except.error (PyError.runtimeError m)) =
      Except.error (PyError.runtimeError m)) ∧
    (∀ (net : Request → NetOutcome) (tid : String),
      server.add_tags_to_transaction (some "tok") none net tid [] =
        ([], Except.error (PyError.valueError UpAPI.tagErrorMessage))) ∧
    (∀ m : String, PyError.valueError UpAPI.tagErrorMessage ≠ PyError.runtimeError m) := by
  refine ⟨fun _ _ => rfl, fun _ _ => rfl, fun _ _ => rfl, fun _ _ => rfl,
    fun _ _ => rfl, fun m h => ?_⟩
  exact PyError.noConfusion h

/-- C10: in every tool, `_get_client` runs before the client method, so with
no usable token the call fails with the configuration `RuntimeError` even
when the empty-tag `ValueError` precondition would also fail; with a usable
token the same call fails with the `ValueError`. -/
theorem claim_C10_config_check_precedes_validation :
    (∀ (net : Request → NetOutcome) (tid : String) (tags : List String),
      server.add_tags_to_transaction none none net tid tags =
        ([], Except.error (PyError.runtimeError configErrorMessage))) ∧
    (∀ (net : Request → NetOutcome) (tid : String),
      server.add_tags_to_transaction none none net tid [] =
        ([], Except.error (PyError.runtimeError configErrorMessage))) ∧
    (∀ (net : Request → NetOutcome) (tid : String),
      server.remove_tags_from_transaction none none net tid [] =
        ([], Except.error (PyError.runtimeError configErrorMessage))) ∧
    (∀ (net : Request → NetOutcome) (tid : String),
      server.add_tags_to_transaction (some "tok") none net tid [] =
        ([], Except.error (PyError.valueError UpAPI.tagErrorMessage))) :=
  ⟨fun _ _ _ => rfl, fun _ _ => rfl, fun _ _ => rfl, fun _ _ => rfl⟩

/-- C9 witness: the translator parts applied at concrete messages, and the
distinctness of the validation error from a concrete `RuntimeError`. -/
theorem claim_C9_translator_selectivity_witness :
    @_run_api_call Json (Except.error (PyError.valueError "v")) =
      Except.error (PyError.valueError "v") ∧
    @_run_api_call Json (Except.error (PyError.upAPIError "u")) =
      Except.error (PyError.runtimeError "u") ∧
    PyError.valueError UpAPI.tagErrorMessage ≠ PyError.runtimeError configErrorMessage :=
  ⟨claim_C9_translator_selectivity.1 Json "v",
   claim_C9_translator_selectivity.2.1 Json "u",
   claim_C9_translator_selectivity.2.2.2.2.2 configErrorMessage⟩
